import Mathlib

set_option linter.unusedVariables false

/-!
Shallow embedding of the conversation-session core of src/src/voice_ai.py:
the mock response generator (MockAudioProcessor), the LLM-backed generation
path (VoiceAI._generate_llm_response), the dispatch (VoiceAI.generate_response)
and the demo conversation loop (VoiceAI.process_demo_conversation).
Python dicts become association lists, in-place list mutation becomes explicit
state passing, the external language model becomes an oracle function from the
rendered prompt to an outcome (a decoded string, or a synchronous exception).
-/

namespace VoiceAI

/-- Association-list read, modelling a Python dict lookup m[k]. -/
def lookupA {α : Type} : List (String × α) → String → Option α
  | [], _ => none
  | (k', v) :: rest, k => if k' = k then some v else lookupA rest k

/-- Association-list write, modelling a Python dict assignment m[k] = v. -/
def setA {α : Type} : List (String × α) → String → α → List (String × α)
  | [], k, v => [(k, v)]
  | (k', v') :: rest, k, v =>
      if k' = k then (k, v) :: rest else (k', v') :: setA rest k v

/-- One transcript entry as built in VoiceAI.process_demo_conversation
(voice_ai.py lines 339-344 and 351-356): a dict with keys timestamp,
speaker, message and type. -/
structure Turn where
  timestamp : Nat
  speaker : String
  message : String
  type : String
  deriving Repr, DecidableEq

/-- Canned replies initialized in MockAudioProcessor (voice_ai.py
lines 94-102). -/
def mockResponses : List String :=
  ["I understand you\x27d like assistance. How can I help you today?",
   "Thank you for that information. Let me help you with that.",
   "I see. Could you provide more details about your request?",
   "That\x27s a great question. Let me explain that for you.",
   "I\x27ll be happy to assist you with that. What else would you like to know?",
   "Is there anything specific you\x27d like help with?",
   "Thank you for calling. How else can I assist you today?"]

/-- Mutable state of MockAudioProcessor: the shared response counter. -/
structure MockAudioProcessor where
  response_index : Nat
  deriving Repr, DecidableEq

/-- Model of MockAudioProcessor.generate_response (voice_ai.py lines 118-122):
return responses[response_index % len(responses)] and advance the counter;
the user input is ignored. -/
def MockAudioProcessor.generate_response (m : MockAudioProcessor)
    (user_input : String) : String × MockAudioProcessor :=
  (mockResponses.getD (m.response_index % mockResponses.length) "",
   ⟨m.response_index + 1⟩)

/-- Python str.strip() on a character list: drop leading and trailing
whitespace. -/
def pyStrip (l : List Char) : List Char :=
  ((l.dropWhile Char.isWhitespace).reverse.dropWhile Char.isWhitespace).reverse

/-- Characters of the substring removed at voice_ai.py line 292. -/
def assistTag : List Char := ['A', 's', 's', 'i', 's', 't', 'a', 'n', 't', ':']

/-- Python str.replace of the assist tag by the empty string: delete every
occurrence, scanning left to right without overlap. The fuel argument (one
unit per examined position, never more than the input length is needed)
only makes the recursion structural. -/
def replaceAssistantAux : Nat → List Char → List Char
  | 0, l => l
  | _ + 1, [] => []
  | fuel + 1, c :: rest =>
      if assistTag.isPrefixOf (c :: rest) then
        replaceAssistantAux fuel ((c :: rest).drop assistTag.length)
      else c :: replaceAssistantAux fuel rest

/-- Python str.replace of the assist tag by the empty string, with the fuel
fixed at the input length, which always suffices. -/
def replaceAssistant (l : List Char) : List Char :=
  replaceAssistantAux l.length l

/-- Post-processing of the raw decoded model output at voice_ai.py line 292:
response.strip().replace of the assist tag by the empty string. -/
def postprocess (s : String) : String := ⟨replaceAssistant (pyStrip s.data)⟩

/-- Fixed substitute reply for empty or too-short generator output
(voice_ai.py line 295). -/
def fallbackShort : String := "I understand. How else can I help you?"

/-- Fixed reply returned from the exception handler of
VoiceAI._generate_llm_response (voice_ai.py line 304). -/
def fallbackError : String :=
  "I apologize for the technical difficulty. How can I assist you?"

/-- Outcome of one call to the external language model (encode, generate,
decode): a raw decoded string, or a synchronous exception inside the try
block. -/
inductive GenOutcome where
  | ok (raw : String)
  | err
  deriving Repr, DecidableEq

/-- State of the VoiceAI object read and written on the demo conversation
path: the mode flag, whether an LLM and tokenizer are loaded, the shared
mock processor, active_calls (prompt history lines per conversation) and
demo_conversations (the transcript per conversation). -/
structure VoiceAIState where
  demo_mode : Bool
  has_llm : Bool
  mock : MockAudioProcessor
  active_calls : List (String × List String)
  demo_conversations : List (String × List Turn)
  deriving Repr, DecidableEq

/-- Last k elements of a list, in original order; all of them when the list
is shorter than k. At k = 6 this is the Python slice history[-6:] used at
voice_ai.py line 275, and it also follows the words of the spec operation
build_context for a general window size. -/
def lastN {α : Type} (k : Nat) (l : List α) : List α := l.drop (l.length - k)

/-- Context window of VoiceAI._generate_llm_response (voice_ai.py line 275):
recent_history = history[-6:]. -/
def recentWindow (history : List String) : List String := lastN 6 history

/-- System prompt literal of VoiceAI._generate_llm_response (voice_ai.py
lines 267-269), an indented Python triple-quoted string. -/
def systemPrompt : String :=
  "You are a helpful customer service representative.\n            Be polite, professional, and concise. Keep responses under 40 words.\n            If you don\x27t know something, offer to connect them with a specialist."

/-- Prompt rendered at voice_ai.py line 277 from the post-append history:
preamble, the joined context window, and a trailing cue for the model. -/
def promptFor (history1 : List String) : String :=
  systemPrompt ++ "\n\nConversation:\n" ++
    String.intercalate "\n" (recentWindow history1) ++ "\nAssistant:"

/-- History lines stored in active_calls for a conversation; a missing entry
reads as the fresh empty history created at voice_ai.py lines 261-262. -/
def historyOf (st : VoiceAIState) (conversation_id : String) : List String :=
  (lookupA st.active_calls conversation_id).getD []

/-- History after the append of the customer line at voice_ai.py line 272,
which happens before the context window is taken. -/
def postAppendHistory (st : VoiceAIState) (user_input conversation_id : String) :
    List String :=
  historyOf st conversation_id ++ ["Customer: " ++ user_input]

/-- Reply kept after the cleanup and the degenerate-output check of
voice_ai.py lines 291-295: the post-processed decode when it is non-empty
and at least 3 characters long, the fixed fallback otherwise. -/
def cleanedResponse (raw : String) : String :=
  if postprocess raw = "" ∨ (postprocess raw).length < 3 then fallbackShort
  else postprocess raw

/-- Model of VoiceAI._generate_llm_response (voice_ai.py lines 257-304).
The external model call is the oracle gen applied to the exact prompt the
code builds; GenOutcome.err models a synchronous exception inside the try
block, caught at line 302 after the customer line was already appended (so
the assistant line of line 298 is never written on that path). State
updates mirror the in-place mutation of the per-conversation history list
stored in active_calls. -/
def genLLMResponse (st : VoiceAIState) (user_input conversation_id : String)
    (gen : String → GenOutcome) : String × VoiceAIState :=
  match gen (promptFor (postAppendHistory st user_input conversation_id)) with
  | GenOutcome.err =>
      (fallbackError,
       { st with active_calls := (setA st.active_calls conversation_id
           (postAppendHistory st user_input conversation_id)) })
  | GenOutcome.ok raw =>
      (cleanedResponse raw,
       { st with active_calls := (setA st.active_calls conversation_id
           (postAppendHistory st user_input conversation_id ++
             ["Assistant: " ++ cleanedResponse raw])) })

/-- Model of VoiceAI.generate_response (voice_ai.py lines 246-255): in demo
mode use the LLM path when a model and tokenizer are loaded, otherwise the
mock processor; outside demo mode always use the LLM path. -/
def generateResponse (st : VoiceAIState) (user_input conversation_id : String)
    (gen : String → GenOutcome) : String × VoiceAIState :=
  if st.demo_mode then
    if st.has_llm then
      genLLMResponse st user_input conversation_id gen
    else
      ((st.mock.generate_response user_input).1,
       { st with mock := (st.mock.generate_response user_input).2 })
  else
    genLLMResponse st user_input conversation_id gen

/-- Fresh conversation id minted at voice_ai.py line 333 when none is
supplied: the string demo_ followed by int(time.time()). -/
def mintId (now : Nat) : String := "demo_" ++ toString now

/-- Resolution of the optional conversation id at voice_ai.py lines 332-333:
the Python truthiness test treats both None and the empty string as absent. -/
def resolveId (conversation_id : Option String) (now : Nat) : String :=
  match conversation_id with
  | none => mintId now
  | some c => if c = "" then mintId now else c

/-- Transcript currently stored for a conversation id; empty when the id is
unknown, matching the create-on-first-reference at voice_ai.py
lines 335-336. -/
def transcriptOf (st : VoiceAIState) (conversation_id : String) : List Turn :=
  (lookupA st.demo_conversations conversation_id).getD []

/-- Result dict returned by VoiceAI.process_demo_conversation (voice_ai.py
lines 362-367). -/
structure DemoResult where
  conversation_id : String
  user_message : Turn
  ai_response : Turn
  conversation_history : List Turn
  deriving Repr, DecidableEq

/-- User turn dict built at voice_ai.py lines 339-344. -/
def userTurn (user_input : String) (now : Nat) : Turn :=
  ⟨now, "user", user_input, "text"⟩

/-- Store state right after the user turn is appended at voice_ai.py
line 345, before the generator runs. -/
def stAfterUser (st : VoiceAIState) (user_input : String)
    (conversation_id : Option String) (now : Nat) : VoiceAIState :=
  { st with demo_conversations :=
      (setA st.demo_conversations (resolveId conversation_id now)
        (transcriptOf st (resolveId conversation_id now) ++ [userTurn user_input now])) }

/-- Assistant reply text produced by the generator call at voice_ai.py
line 348. -/
def aiText (st : VoiceAIState) (user_input : String)
    (conversation_id : Option String) (now : Nat) (gen : String → GenOutcome) :
    String :=
  (generateResponse (stAfterUser st user_input conversation_id now) user_input
    (resolveId conversation_id now) gen).1

/-- Assistant turn dict built at voice_ai.py lines 351-356. -/
def aiTurn (st : VoiceAIState) (user_input : String)
    (conversation_id : Option String) (now : Nat) (gen : String → GenOutcome) :
    Turn :=
  ⟨now, "ai", aiText st user_input conversation_id now gen, "text"⟩

/-- Model of VoiceAI.process_demo_conversation (voice_ai.py lines 330-367).
The parameter now is the wall-clock second used for id minting and for the
turn timestamps; the returned conversation_history is the stored transcript
after both appends, as the Python code returns the live list. -/
def processDemoConversation (st : VoiceAIState) (user_input : String)
    (conversation_id : Option String) (now : Nat) (gen : String → GenOutcome) :
    DemoResult × VoiceAIState :=
  (⟨resolveId conversation_id now,
    userTurn user_input now,
    aiTurn st user_input conversation_id now gen,
    (transcriptOf st (resolveId conversation_id now) ++ [userTurn user_input now])
      ++ [aiTurn st user_input conversation_id now gen]⟩,
   { (generateResponse (stAfterUser st user_input conversation_id now) user_input
        (resolveId conversation_id now) gen).2 with
     demo_conversations :=
       (setA (generateResponse (stAfterUser st user_input conversation_id now)
               user_input (resolveId conversation_id now) gen).2.demo_conversations
          (resolveId conversation_id now)
          ((transcriptOf st (resolveId conversation_id now) ++ [userTurn user_input now])
            ++ [aiTurn st user_input conversation_id now gen])) })

/-- One inbound demo-chat request: the user text, the optional conversation
id, the second at which it arrives, and the generator behavior during the
call. -/
structure StepInput where
  user_input : String
  conversation_id : Option String
  now : Nat
  gen : String → GenOutcome

/-- Replay of a sequence of demo-chat requests against the store. -/
def runAll (st : VoiceAIState) : List StepInput → VoiceAIState
  | [] => st
  | s :: rest =>
      runAll (processDemoConversation st s.user_input s.conversation_id s.now s.gen).2 rest

/-- Turns a replay records on the transcript of a given conversation id, in
the order the requests are processed. -/
def recordedTurns (st : VoiceAIState) (steps : List StepInput) (cid : String) :
    List Turn :=
  match steps with
  | [] => []
  | s :: rest =>
      (if resolveId s.conversation_id s.now = cid
       then [userTurn s.user_input s.now,
             aiTurn st s.user_input s.conversation_id s.now s.gen]
       else [])
        ++ recordedTurns
            (processDemoConversation st s.user_input s.conversation_id s.now s.gen).2
            rest cid

/-- Shape invariant of a transcript entry: the speaker is the user tag or the
assistant tag (serialized as the string ai in this codebase), the kind tag is
the string text, and a timestamp field is present by construction. -/
def wellFormedTurn (t : Turn) : Prop :=
  (t.speaker = "user" ∨ t.speaker = "ai") ∧ t.type = "text"

instance : DecidablePred wellFormedTurn := fun t => by
  unfold wellFormedTurn; infer_instance

/-- Every turn of every stored transcript is well formed. -/
def storeWF (st : VoiceAIState) : Prop :=
  ∀ e ∈ st.demo_conversations, ∀ t ∈ e.2, wellFormedTurn t

/-! Helper lemmas about the association-list operations. -/

theorem lookupA_setA_self {α : Type} (m : List (String × α)) (k : String) (v : α) :
    lookupA (setA m k v) k = some v := by
  induction m with
  | nil => simp [setA, lookupA]
  | cons q rest ih =>
      obtain ⟨k', v'⟩ := q
      by_cases h : k' = k
      · simp [setA, h, lookupA]
      · simp [setA, h, lookupA, ih]

theorem lookupA_setA_ne {α : Type} (m : List (String × α)) (k j : String) (v : α)
    (h : j ≠ k) : lookupA (setA m k v) j = lookupA m j := by
  induction m with
  | nil => simp [setA, lookupA, Ne.symm h]
  | cons q rest ih =>
      obtain ⟨k', v'⟩ := q
      by_cases hk : k' = k
      · subst hk
        simp [setA, lookupA, Ne.symm h]
      · simp [setA, hk, lookupA, ih]

theorem mem_setA {α : Type} {m : List (String × α)} {k : String} {v : α}
    {p : String × α} (hp : p ∈ setA m k v) : p = (k, v) ∨ p ∈ m := by
  induction m with
  | nil => simpa [setA] using hp
  | cons q rest ih =>
      obtain ⟨k', v'⟩ := q
      by_cases h : k' = k
      · rw [setA, if_pos h] at hp
        rcases List.mem_cons.mp hp with h1 | h1
        · exact Or.inl h1
        · exact Or.inr (List.mem_cons_of_mem _ h1)
      · rw [setA, if_neg h] at hp
        rcases List.mem_cons.mp hp with h1 | h1
        · exact Or.inr (h1 ▸ List.mem_cons_self _ _)
        · rcases ih h1 with h2 | h2
          · exact Or.inl h2
          · exact Or.inr (List.mem_cons_of_mem _ h2)

theorem lookupA_mem {α : Type} {m : List (String × α)} {k : String} {v : α}
    (h : lookupA m k = some v) : (k, v) ∈ m := by
  induction m with
  | nil => simp [lookupA] at h
  | cons q rest ih =>
      obtain ⟨k', v'⟩ := q
      by_cases hk : k' = k
      · subst hk
        rw [lookupA, if_pos rfl] at h
        obtain rfl : v' = v := Option.some.inj h
        exact List.mem_cons_self _ _
      · rw [lookupA, if_neg hk] at h
        exact List.mem_cons_of_mem _ (ih h)

/-! Helper lemmas about the trailing window. -/

theorem lastN_length {α : Type} (k : Nat) (l : List α) :
    (lastN k l).length = min k l.length := by
  simp only [lastN, List.length_drop]
  omega

theorem lastN_suffix {α : Type} (k : Nat) (l : List α) :
    l.take (l.length - k) ++ lastN k l = l :=
  List.take_append_drop _ _

theorem lastN_concat_getLast {α : Type} (k : Nat) (hk : 0 < k) (h : List α)
    (x : α) : (lastN k (h ++ [x])).getLast? = some x := by
  unfold lastN
  have hlen : (h ++ [x]).length = h.length + 1 := by simp
  rw [hlen]
  have hle : h.length + 1 - k ≤ h.length := by omega
  rw [List.drop_append_of_le_length hle]
  exact List.getLast?_concat _

/-! Helper lemmas about the output post-processing. -/

theorem length_dropWhile_le {α : Type} (p : α → Bool) (l : List α) :
    (l.dropWhile p).length ≤ l.length := by
  induction l with
  | nil => simp [List.dropWhile]
  | cons a t ih =>
      rw [List.dropWhile_cons]
      split
      · exact Nat.le_trans ih (by simp)
      · simp

theorem pyStrip_length_le (l : List Char) : (pyStrip l).length ≤ l.length := by
  unfold pyStrip
  rw [List.length_reverse]
  calc ((l.dropWhile Char.isWhitespace).reverse.dropWhile Char.isWhitespace).length
      ≤ (l.dropWhile Char.isWhitespace).reverse.length := length_dropWhile_le _ _
    _ = (l.dropWhile Char.isWhitespace).length := List.length_reverse _
    _ ≤ l.length := length_dropWhile_le _ _

theorem replaceAssistantAux_length_le (fuel : Nat) (l : List Char) :
    (replaceAssistantAux fuel l).length ≤ l.length := by
  induction fuel generalizing l with
  | zero => exact Nat.le_refl _
  | succ fuel ih =>
      cases l with
      | nil => exact Nat.le_refl _
      | cons c rest =>
          rw [replaceAssistantAux]
          split
          · exact Nat.le_trans (ih _) (by simp)
          · exact Nat.succ_le_succ (ih _)

theorem replaceAssistant_length_le (l : List Char) :
    (replaceAssistant l).length ≤ l.length :=
  replaceAssistantAux_length_le _ _

theorem postprocess_length_le (s : String) :
    (postprocess s).length ≤ s.length := by
  show (replaceAssistant (pyStrip s.data)).length ≤ s.data.length
  exact Nat.le_trans (replaceAssistant_length_le _) (pyStrip_length_le _)

/-! Helper lemmas about the response generation paths. -/

theorem generateResponse_demo_conversations (st : VoiceAIState) (u c : String)
    (gen : String → GenOutcome) :
    (generateResponse st u c gen).2.demo_conversations = st.demo_conversations := by
  unfold generateResponse genLLMResponse
  repeat' split
  all_goals rfl

theorem generateResponse_demo_mode (st : VoiceAIState) (u c : String)
    (gen : String → GenOutcome) :
    (generateResponse st u c gen).2.demo_mode = st.demo_mode := by
  unfold generateResponse genLLMResponse
  repeat' split
  all_goals rfl

theorem generateResponse_has_llm (st : VoiceAIState) (u c : String)
    (gen : String → GenOutcome) :
    (generateResponse st u c gen).2.has_llm = st.has_llm := by
  unfold generateResponse genLLMResponse
  repeat' split
  all_goals rfl

theorem generateResponse_mock_of_no_llm (st : VoiceAIState) (u c : String)
    (gen : String → GenOutcome) (h1 : st.demo_mode = true)
    (h2 : st.has_llm = false) :
    (generateResponse st u c gen).1 =
      mockResponses.getD (st.mock.response_index % mockResponses.length) "" ∧
    (generateResponse st u c gen).2.mock.response_index =
      st.mock.response_index + 1 := by
  unfold generateResponse
  simp [h1, h2, MockAudioProcessor.generate_response]

theorem mock_getD_ne_empty (i : Nat) :
    mockResponses.getD (i % mockResponses.length) "" ≠ "" := by
  have h : ∀ j, j < 7 → mockResponses.getD j "" ≠ "" := by decide
  have hlen : mockResponses.length = 7 := rfl
  rw [hlen]
  exact h _ (Nat.mod_lt _ (by omega))

theorem cleanedResponse_ne_empty (raw : String) : cleanedResponse raw ≠ "" := by
  unfold cleanedResponse
  split
  · intro hh
    exact absurd hh (by decide)
  · rename_i hcond
    intro hh
    exact hcond (Or.inl hh)

theorem genLLMResponse_fst_ne_empty (st : VoiceAIState) (u c : String)
    (gen : String → GenOutcome) : (genLLMResponse st u c gen).1 ≠ "" := by
  unfold genLLMResponse
  split
  · show fallbackError ≠ ""
    decide
  · exact cleanedResponse_ne_empty _

theorem generateResponse_fst_ne_empty (st : VoiceAIState) (u c : String)
    (gen : String → GenOutcome) : (generateResponse st u c gen).1 ≠ "" := by
  unfold generateResponse
  split
  · split
    · exact genLLMResponse_fst_ne_empty _ _ _ _
    · exact mock_getD_ne_empty _
  · exact genLLMResponse_fst_ne_empty _ _ _ _

theorem genLLMResponse_short_fallback (st : VoiceAIState) (u c raw : String)
    (h : raw.length < 3) :
    (genLLMResponse st u c (fun _ => GenOutcome.ok raw)).1 = fallbackShort := by
  show cleanedResponse raw = fallbackShort
  unfold cleanedResponse
  rw [if_pos (Or.inr (Nat.lt_of_le_of_lt (postprocess_length_le raw) h))]

/-! Helper lemmas about the demo conversation step. -/

theorem process_transcript_step (st : VoiceAIState) (u : String)
    (cido : Option String) (now : Nat) (gen : String → GenOutcome) (c : String) :
    transcriptOf (processDemoConversation st u cido now gen).2 c =
      if resolveId cido now = c then
        transcriptOf st c ++ [userTurn u now, aiTurn st u cido now gen]
      else transcriptOf st c := by
  unfold transcriptOf processDemoConversation
  dsimp only
  rw [generateResponse_demo_conversations]
  unfold stAfterUser
  dsimp only
  by_cases h : resolveId cido now = c
  · rw [if_pos h, ← h, lookupA_setA_self]
    simp [transcriptOf]
  · rw [if_neg h,
        lookupA_setA_ne _ _ _ _ (fun hh => h hh.symm),
        lookupA_setA_ne _ _ _ _ (fun hh => h hh.symm)]

theorem process_demo_mode (st : VoiceAIState) (u : String) (cido : Option String)
    (now : Nat) (gen : String → GenOutcome) :
    (processDemoConversation st u cido now gen).2.demo_mode = st.demo_mode := by
  unfold processDemoConversation
  dsimp only
  exact generateResponse_demo_mode _ _ _ _

theorem process_has_llm (st : VoiceAIState) (u : String) (cido : Option String)
    (now : Nat) (gen : String → GenOutcome) :
    (processDemoConversation st u cido now gen).2.has_llm = st.has_llm := by
  unfold processDemoConversation
  dsimp only
  exact generateResponse_has_llm _ _ _ _

theorem process_mock_index (st : VoiceAIState) (u : String) (cido : Option String)
    (now : Nat) (gen : String → GenOutcome) (h1 : st.demo_mode = true)
    (h2 : st.has_llm = false) :
    (processDemoConversation st u cido now gen).2.mock.response_index =
      st.mock.response_index + 1 := by
  unfold processDemoConversation
  dsimp only
  exact (generateResponse_mock_of_no_llm (stAfterUser st u cido now) u
    (resolveId cido now) gen h1 h2).2

theorem mintId_ne_empty (now : Nat) : mintId now ≠ "" := by
  intro h
  have h2 : (mintId now).data = [] := by rw [h]
  have h3 : (mintId now).data =
      'd' :: 'e' :: 'm' :: 'o' :: '_' :: (toString now).data := rfl
  rw [h3] at h2
  cases h2

/-! Helper lemmas about replays of request sequences. -/

theorem runAll_transcript (st : VoiceAIState) (steps : List StepInput)
    (cid : String) :
    transcriptOf (runAll st steps) cid =
      transcriptOf st cid ++ recordedTurns st steps cid := by
  induction steps generalizing st with
  | nil => simp [runAll, recordedTurns]
  | cons s rest ih =>
      rw [runAll, recordedTurns, ih, process_transcript_step]
      by_cases h : resolveId s.conversation_id s.now = cid
      · rw [if_pos h, if_pos h]
        simp [List.append_assoc]
      · rw [if_neg h, if_neg h]
        simp

theorem runAll_demo_mode (st : VoiceAIState) (steps : List StepInput) :
    (runAll st steps).demo_mode = st.demo_mode := by
  induction steps generalizing st with
  | nil => rfl
  | cons s rest ih => rw [runAll, ih, process_demo_mode]

theorem runAll_has_llm (st : VoiceAIState) (steps : List StepInput) :
    (runAll st steps).has_llm = st.has_llm := by
  induction steps generalizing st with
  | nil => rfl
  | cons s rest ih => rw [runAll, ih, process_has_llm]

theorem runAll_mock_index (st : VoiceAIState) (steps : List StepInput)
    (h1 : st.demo_mode = true) (h2 : st.has_llm = false) :
    (runAll st steps).mock.response_index =
      st.mock.response_index + steps.length := by
  induction steps generalizing st with
  | nil => rfl
  | cons s rest ih =>
      rw [runAll]
      rw [ih _ (by rw [process_demo_mode]; exact h1)
            (by rw [process_has_llm]; exact h2)]
      rw [process_mock_index _ _ _ _ _ h1 h2]
      simp [List.length_cons]
      omega

/-! Helper lemmas about the turn-shape invariant. -/

theorem storeWF_transcriptOf {st : VoiceAIState} (h : storeWF st) (c : String)
    {t : Turn} (ht : t ∈ transcriptOf st c) : wellFormedTurn t := by
  unfold transcriptOf at ht
  cases hl : lookupA st.demo_conversations c with
  | none =>
      rw [hl] at ht
      cases ht
  | some l =>
      rw [hl] at ht
      exact h (c, l) (lookupA_mem hl) t ht

theorem wellFormedTurn_userTurn (u : String) (now : Nat) :
    wellFormedTurn (userTurn u now) := ⟨Or.inl rfl, rfl⟩

theorem wellFormedTurn_aiTurn (st : VoiceAIState) (u : String)
    (cido : Option String) (now : Nat) (gen : String → GenOutcome) :
    wellFormedTurn (aiTurn st u cido now gen) := ⟨Or.inr rfl, rfl⟩

theorem storeWF_process (st : VoiceAIState) (u : String) (cido : Option String)
    (now : Nat) (gen : String → GenOutcome) (h : storeWF st) :
    storeWF (processDemoConversation st u cido now gen).2 := by
  intro e he t ht
  unfold processDemoConversation at he
  dsimp only at he
  rw [generateResponse_demo_conversations] at he
  unfold stAfterUser at he
  dsimp only at he
  rcases mem_setA he with h1 | h1
  · subst h1
    dsimp only at ht
    rcases List.mem_append.mp ht with h2 | h2
    · rcases List.mem_append.mp h2 with h3 | h3
      · exact storeWF_transcriptOf h _ h3
      · rcases List.mem_singleton.mp h3 with rfl
        exact wellFormedTurn_userTurn _ _
    · rcases List.mem_singleton.mp h2 with rfl
      exact wellFormedTurn_aiTurn _ _ _ _ _
  · rcases mem_setA h1 with h2 | h2
    · subst h2
      dsimp only at ht
      rcases List.mem_append.mp ht with h3 | h3
      · exact storeWF_transcriptOf h _ h3
      · rcases List.mem_singleton.mp h3 with rfl
        exact wellFormedTurn_userTurn _ _
    · exact h e h2 t ht

/-! Claim theorems. -/

/-- C1: for every session and every replayed sequence of demo-chat requests,
the stored transcript ends up being the initial transcript extended, in
order, with exactly the turn pairs recorded on that session — nothing
removed or reordered (append-only) — and the conversation_history returned
to the caller by process_demo_conversation is exactly the stored transcript
of that session after the call. -/
theorem C1_transcript_append_only (st : VoiceAIState) (steps : List StepInput)
    (cid : String) (u : String) (cido : Option String) (now : Nat)
    (gen : String → GenOutcome) :
    transcriptOf (runAll st steps) cid =
      transcriptOf st cid ++ recordedTurns st steps cid ∧
    (processDemoConversation st u cido now gen).1.conversation_history =
      transcriptOf (processDemoConversation st u cido now gen).2
        (processDemoConversation st u cido now gen).1.conversation_id := by
  refine ⟨runAll_transcript _ _ _, ?_⟩
  have hstep := process_transcript_step st u cido now gen (resolveId cido now)
  rw [if_pos rfl] at hstep
  show (transcriptOf st (resolveId cido now) ++ [userTurn u now])
      ++ [aiTurn st u cido now gen] =
    transcriptOf (processDemoConversation st u cido now gen).2 (resolveId cido now)
  rw [hstep]
  simp [List.append_assoc]

/-- C2: the trailing context window yields min(k, N) turns forming a suffix
of the transcript in original oldest-first order; the code instantiates it
at window size 6 on the history taken after the customer line for the
just-recorded user turn was appended, so the window always ends with that
line, and the rendered prompt is built from exactly that post-append
window. -/
theorem C2_context_window (k : Nat) (l : List Turn) (st : VoiceAIState)
    (u c : String) :
    (lastN k l).length = min k l.length ∧
    l.take (l.length - k) ++ lastN k l = l ∧
    recentWindow (postAppendHistory st u c) =
      lastN 6 (historyOf st c ++ ["Customer: " ++ u]) ∧
    (recentWindow (postAppendHistory st u c)).getLast? =
      some ("Customer: " ++ u) ∧
    promptFor (postAppendHistory st u c) =
      systemPrompt ++ "\n\nConversation:\n" ++
        String.intercalate "\n" (recentWindow (postAppendHistory st u c)) ++
        "\nAssistant:" := by
  refine ⟨lastN_length _ _, lastN_suffix _ _, rfl, ?_, rfl⟩
  unfold recentWindow postAppendHistory
  exact lastN_concat_getLast 6 (by omega) _ _

/-- C3 counterexample: with a session demo_5 already stored and the clock at
second 5, a submission with no conversation id resolves to the existing id
demo_5 and appends to its 2-turn transcript, returning a 4-turn history — so
the minted id is not fresh, refuting the claim that a no-id submission
always yields a fresh session id. -/
theorem C3_counterexample :
    (processDemoConversation
        ⟨true, false, ⟨0⟩, [],
         [("demo_5", [⟨5, "user", "old", "text"⟩, ⟨5, "ai", "reply", "text"⟩])]⟩
        "again" none 5 (fun _ => GenOutcome.ok "x")).1.conversation_id =
      "demo_5" ∧
    lookupA (⟨true, false, ⟨0⟩, [],
         [("demo_5", [⟨5, "user", "old", "text"⟩, ⟨5, "ai", "reply", "text"⟩])]⟩ :
        VoiceAIState).demo_conversations "demo_5" ≠ none ∧
    (processDemoConversation
        ⟨true, false, ⟨0⟩, [],
         [("demo_5", [⟨5, "user", "old", "text"⟩, ⟨5, "ai", "reply", "text"⟩])]⟩
        "again" none 5
        (fun _ => GenOutcome.ok "x")).1.conversation_history.length = 4 := by
  decide

/-- C3 amended: a no-id submission yields the non-empty minted id demo_ plus
the current second, and the session is fresh whenever no session with that
minted id already exists (the returned history is then exactly the new turn
pair); a previously-returned non-empty id is reused, appending to that
session's existing transcript (creating it on first reference), and no
request fails with a session-not-found error. -/
theorem C3_session_resolution (st : VoiceAIState) (u : String) (now : Nat)
    (gen : String → GenOutcome) (cid : String) (hc : cid ≠ "") :
    (processDemoConversation st u none now gen).1.conversation_id = mintId now ∧
    mintId now ≠ "" ∧
    (lookupA st.demo_conversations (mintId now) = none →
      (processDemoConversation st u none now gen).1.conversation_history =
        [userTurn u now, aiTurn st u none now gen]) ∧
    (processDemoConversation st u (some cid) now gen).1.conversation_id = cid ∧
    (processDemoConversation st u (some cid) now gen).1.conversation_history =
      transcriptOf st cid ++ [userTurn u now, aiTurn st u (some cid) now gen] := by
  have hr : resolveId (some cid) now = cid := by
    show (if cid = "" then mintId now else cid) = cid
    rw [if_neg hc]
  refine ⟨rfl, mintId_ne_empty now, ?_, hr, ?_⟩
  · intro hl
    show (transcriptOf st (resolveId none now) ++ [userTurn u now])
        ++ [aiTurn st u none now gen] = _
    show (transcriptOf st (mintId now) ++ [userTurn u now])
        ++ [aiTurn st u none now gen] = _
    unfold transcriptOf
    rw [hl]
    rfl
  · show (transcriptOf st (resolveId (some cid) now) ++ [userTurn u now])
        ++ [aiTurn st u (some cid) now gen] = _
    rw [hr]
    simp [List.append_assoc]

theorem C3_session_resolution_witness :
    (processDemoConversation ⟨true, false, ⟨0⟩, [], []⟩ "hi" none 7
        (fun _ => GenOutcome.ok "x")).1.conversation_id = mintId 7 ∧
    mintId 7 ≠ "" ∧
    (processDemoConversation ⟨true, false, ⟨0⟩, [], []⟩ "hi" none 7
        (fun _ => GenOutcome.ok "x")).1.conversation_history =
      [userTurn "hi" 7,
       aiTurn ⟨true, false, ⟨0⟩, [], []⟩ "hi" none 7 (fun _ => GenOutcome.ok "x")] ∧
    (processDemoConversation ⟨true, false, ⟨0⟩, [], []⟩ "hi" (some "c1") 7
        (fun _ => GenOutcome.ok "x")).1.conversation_id = "c1" ∧
    (processDemoConversation ⟨true, false, ⟨0⟩, [], []⟩ "hi" (some "c1") 7
        (fun _ => GenOutcome.ok "x")).1.conversation_history =
      transcriptOf ⟨true, false, ⟨0⟩, [], []⟩ "c1" ++
        [userTurn "hi" 7,
         aiTurn ⟨true, false, ⟨0⟩, [], []⟩ "hi" (some "c1") 7
           (fun _ => GenOutcome.ok "x")] := by
  have h := C3_session_resolution ⟨true, false, ⟨0⟩, [], []⟩ "hi" 7
    (fun _ => GenOutcome.ok "x") "c1" (by decide)
  exact ⟨h.1, h.2.1, h.2.2.1 rfl, h.2.2.2.1, h.2.2.2.2⟩

/-- C4: when the generator output is empty or shorter than 3 characters the
recorded assistant reply is the fixed non-empty fallback string, and the
reply produced by every generation path — hence the text of every produced
assistant turn — is never empty. -/
theorem C4_degenerate_output_fallback (st : VoiceAIState) (u c raw : String)
    (cido : Option String) (now : Nat) (gen : String → GenOutcome)
    (h : raw.length < 3) (h1 : st.demo_mode = true) (h2 : st.has_llm = true) :
    (genLLMResponse st u c (fun _ => GenOutcome.ok raw)).1 = fallbackShort ∧
    fallbackShort ≠ "" ∧
    (processDemoConversation st u (some c) now
        (fun _ => GenOutcome.ok raw)).1.ai_response.message = fallbackShort ∧
    (generateResponse st u c gen).1 ≠ "" ∧
    (processDemoConversation st u cido now gen).1.ai_response.message ≠ "" := by
  refine ⟨genLLMResponse_short_fallback st u c raw h, by decide, ?_,
    generateResponse_fst_ne_empty st u c gen,
    generateResponse_fst_ne_empty _ _ _ _⟩
  show (generateResponse (stAfterUser st u (some c) now) u
      (resolveId (some c) now) (fun _ => GenOutcome.ok raw)).1 = fallbackShort
  have hd : (stAfterUser st u (some c) now).demo_mode = true := h1
  have hl : (stAfterUser st u (some c) now).has_llm = true := h2
  unfold generateResponse
  rw [if_pos hd, if_pos hl]
  exact genLLMResponse_short_fallback _ _ _ _ h

theorem C4_degenerate_output_fallback_witness :
    (genLLMResponse ⟨true, true, ⟨0⟩, [], []⟩ "hi" "c1"
        (fun _ => GenOutcome.ok "")).1 = fallbackShort ∧
    fallbackShort ≠ "" ∧
    (processDemoConversation ⟨true, true, ⟨0⟩, [], []⟩ "hi" (some "c1") 7
        (fun _ => GenOutcome.ok "")).1.ai_response.message = fallbackShort ∧
    (generateResponse ⟨true, true, ⟨0⟩, [], []⟩ "hi" "c1"
        (fun _ => GenOutcome.ok "")).1 ≠ "" ∧
    (processDemoConversation ⟨true, true, ⟨0⟩, [], []⟩ "hi" (some "c1") 7
        (fun _ => GenOutcome.ok "")).1.ai_response.message ≠ "" :=
  C4_degenerate_output_fallback ⟨true, true, ⟨0⟩, [], []⟩ "hi" "c1" ""
    (some "c1") 7 (fun _ => GenOutcome.ok "") (by decide) rfl rfl

/-- C5 counterexample: on the same state, a synchronous generator exception
and an empty generator output are not handled identically: the exception
path returns the fixed apology reply and appends no assistant line to the
prompt history, while the empty-output path returns the degenerate-output
fallback and does append one, so both the replies and the post-call states
differ. -/
theorem C5_counterexample :
    (genLLMResponse ⟨true, true, ⟨0⟩, [], []⟩ "hi" "c1"
        (fun _ => GenOutcome.err)).1 = fallbackError ∧
    (genLLMResponse ⟨true, true, ⟨0⟩, [], []⟩ "hi" "c1"
        (fun _ => GenOutcome.ok "")).1 = fallbackShort ∧
    (genLLMResponse ⟨true, true, ⟨0⟩, [], []⟩ "hi" "c1"
        (fun _ => GenOutcome.err)).1 ≠
      (genLLMResponse ⟨true, true, ⟨0⟩, [], []⟩ "hi" "c1"
        (fun _ => GenOutcome.ok "")).1 ∧
    (genLLMResponse ⟨true, true, ⟨0⟩, [], []⟩ "hi" "c1"
        (fun _ => GenOutcome.err)).2 ≠
      (genLLMResponse ⟨true, true, ⟨0⟩, [], []⟩ "hi" "c1"
        (fun _ => GenOutcome.ok "")).2 := by
  decide

/-- C5 amended: a synchronous generator exception never propagates: the call
returns normally with the fixed non-empty apology reply (a fixed string
distinct from the degenerate-output fallback), the customer line is still
recorded in the prompt history but no assistant line is, and the assistant
turn recorded by the conversation loop carries the apology reply. -/
theorem C5_exception_recovery (st : VoiceAIState) (u c : String) (now : Nat)
    (h1 : st.demo_mode = true) (h2 : st.has_llm = true) :
    (genLLMResponse st u c (fun _ => GenOutcome.err)).1 = fallbackError ∧
    fallbackError ≠ "" ∧
    historyOf (genLLMResponse st u c (fun _ => GenOutcome.err)).2 c =
      postAppendHistory st u c ∧
    (processDemoConversation st u (some c) now
        (fun _ => GenOutcome.err)).1.ai_response.message = fallbackError := by
  refine ⟨rfl, by decide, ?_, ?_⟩
  · show (lookupA (setA st.active_calls c (postAppendHistory st u c)) c).getD []
        = postAppendHistory st u c
    rw [lookupA_setA_self]
    rfl
  · show (generateResponse (stAfterUser st u (some c) now) u
        (resolveId (some c) now) (fun _ => GenOutcome.err)).1 = fallbackError
    have hd : (stAfterUser st u (some c) now).demo_mode = true := h1
    have hl : (stAfterUser st u (some c) now).has_llm = true := h2
    unfold generateResponse
    rw [if_pos hd, if_pos hl]
    rfl

theorem C5_exception_recovery_witness :
    (genLLMResponse ⟨true, true, ⟨0⟩, [], []⟩ "hi" "c1"
        (fun _ => GenOutcome.err)).1 = fallbackError ∧
    fallbackError ≠ "" ∧
    historyOf (genLLMResponse ⟨true, true, ⟨0⟩, [], []⟩ "hi" "c1"
        (fun _ => GenOutcome.err)).2 "c1" =
      postAppendHistory ⟨true, true, ⟨0⟩, [], []⟩ "hi" "c1" ∧
    (processDemoConversation ⟨true, true, ⟨0⟩, [], []⟩ "hi" (some "c1") 7
        (fun _ => GenOutcome.err)).1.ai_response.message = fallbackError :=
  C5_exception_recovery ⟨true, true, ⟨0⟩, [], []⟩ "hi" "c1" 7 rfl rfl

/-- C6: the empty-string utterance is accepted without validation: the
recorded user turn has empty text, it is appended to the resolved session's
transcript together with the assistant turn, and the produced assistant
turn's text is non-empty. -/
theorem C6_empty_input_accepted (st : VoiceAIState) (cido : Option String)
    (now : Nat) (gen : String → GenOutcome) :
    (processDemoConversation st "" cido now gen).1.user_message.message = "" ∧
    (processDemoConversation st "" cido now gen).1.conversation_history =
      transcriptOf st (resolveId cido now) ++
        [userTurn "" now, aiTurn st "" cido now gen] ∧
    (processDemoConversation st "" cido now gen).1.ai_response.message ≠ "" := by
  refine ⟨rfl, ?_, generateResponse_fst_ne_empty _ _ _ _⟩
  show (transcriptOf st (resolveId cido now) ++ [userTurn "" now])
      ++ [aiTurn st "" cido now gen] = _
  simp [List.append_assoc]

/-- C7: when no conversation id is supplied the minted id is exactly the
string demo_ followed by the integer second since the epoch, so two no-id
submissions processed within the same second mint the same id regardless of
state or input — the scheme is not collision free. -/
theorem C7_minted_id_scheme (st st' : VoiceAIState) (u u' : String) (now : Nat)
    (gen gen' : String → GenOutcome) :
    (processDemoConversation st u none now gen).1.conversation_id =
      "demo_" ++ toString now ∧
    (processDemoConversation st u none now gen).1.conversation_id =
      (processDemoConversation st' u' none now gen').1.conversation_id :=
  ⟨rfl, rfl⟩

/-- C8: starting from any store whose turns are all well formed, every turn
stored after any replay of requests still has a speaker from the two-value
set (the user tag or the assistant tag, serialized ai), the kind tag text,
and a timestamp present by construction — the invariant holds for all turns
produced by every operation. -/
theorem C8_turn_shape_invariant (st : VoiceAIState) (steps : List StepInput)
    (h : storeWF st) : storeWF (runAll st steps) := by
  induction steps generalizing st with
  | nil => exact h
  | cons s rest ih =>
      rw [runAll]
      exact ih _ (storeWF_process _ _ _ _ _ h)

theorem C8_turn_shape_invariant_witness :
    storeWF (runAll ⟨true, false, ⟨0⟩, [], []⟩
      [⟨"hello", none, 3, fun _ => GenOutcome.ok "sure thing"⟩,
       ⟨"more", some "c1", 4, fun _ => GenOutcome.err⟩]) :=
  C8_turn_shape_invariant ⟨true, false, ⟨0⟩, [], []⟩ _
    (fun e he => absurd he (List.not_mem_nil e))

/-- C10: with no language model loaded, the reply to a generation request is
the canned response at index response_index mod 7, independent of the user
input, the conversation id and the oracle; the counter is global across
sessions, so after a replay of n requests targeting any mix of sessions the
next reply is the canned response at index (initial counter + n) mod 7. -/
theorem C10_mock_round_robin (st : VoiceAIState) (steps : List StepInput)
    (u u' c c' : String) (gen gen' : String → GenOutcome)
    (h1 : st.demo_mode = true) (h2 : st.has_llm = false) :
    (generateResponse st u c gen).1 =
      mockResponses.getD (st.mock.response_index % mockResponses.length) "" ∧
    (generateResponse st u c gen).1 = (generateResponse st u' c' gen').1 ∧
    (runAll st steps).mock.response_index =
      st.mock.response_index + steps.length ∧
    (generateResponse (runAll st steps) u c gen).1 =
      mockResponses.getD
        ((st.mock.response_index + steps.length) % mockResponses.length) "" := by
  have ha := (generateResponse_mock_of_no_llm st u c gen h1 h2).1
  have hb := (generateResponse_mock_of_no_llm st u' c' gen' h1 h2).1
  have hrun := runAll_mock_index st steps h1 h2
  have hda : (runAll st steps).demo_mode = true := by
    rw [runAll_demo_mode]
    exact h1
  have hla : (runAll st steps).has_llm = false := by
    rw [runAll_has_llm]
    exact h2
  have hlast := (generateResponse_mock_of_no_llm (runAll st steps) u c gen hda hla).1
  refine ⟨ha, ha.trans hb.symm, hrun, ?_⟩
  rw [hlast, hrun]

theorem C10_mock_round_robin_witness :
    (generateResponse ⟨true, false, ⟨0⟩, [], []⟩ "a" "s1"
        (fun _ => GenOutcome.ok "x")).1 =
      mockResponses.getD (0 % mockResponses.length) "" ∧
    (generateResponse ⟨true, false, ⟨0⟩, [], []⟩ "a" "s1"
        (fun _ => GenOutcome.ok "x")).1 =
      (generateResponse ⟨true, false, ⟨0⟩, [], []⟩ "b" "s2"
        (fun _ => GenOutcome.err)).1 ∧
    (runAll ⟨true, false, ⟨0⟩, [], []⟩
        [⟨"m1", none, 3, fun _ => GenOutcome.ok "y"⟩,
         ⟨"m2", some "s9", 4, fun _ => GenOutcome.err⟩]).mock.response_index =
      0 + 2 ∧
    (generateResponse (runAll ⟨true, false, ⟨0⟩, [], []⟩
        [⟨"m1", none, 3, fun _ => GenOutcome.ok "y"⟩,
         ⟨"m2", some "s9", 4, fun _ => GenOutcome.err⟩]) "a" "s1"
        (fun _ => GenOutcome.ok "x")).1 =
      mockResponses.getD ((0 + 2) % mockResponses.length) "" :=
  C10_mock_round_robin ⟨true, false, ⟨0⟩, [], []⟩
    [⟨"m1", none, 3, fun _ => GenOutcome.ok "y"⟩,
     ⟨"m2", some "s9", 4, fun _ => GenOutcome.err⟩]
    "a" "b" "s1" "s2" (fun _ => GenOutcome.ok "x") (fun _ => GenOutcome.err)
    rfl rfl

end VoiceAI
